import Mathlib

/-!
Shallow embedding of `src/project/lib/sdl/src/video/android/SDL_androidevents.c`
(the Android lifecycle pump of this repository's bundled SDL).

Modelling conventions:
* Every external query the C code performs (semaphore try-wait outcomes,
  `SDL_NumberOfEvents`, `SDL_SemValue`, native-window geometry, display modes,
  EGL call outcomes, ...) is an input supplied by a per-call environment
  record, so the step functions are total and executable, and the theorems
  quantify over all possible environments.
* The C `static` variables (`saved_swap_interval`, `prev_surface_w`,
  `prev_surface_h`, `prev_rate`, `backup_context`) and the fields of
  `SDL_VideoData` / `SDL_WindowData` used by this file become explicit fields
  of the state threaded through the steps.
* `SDL_SemWait(Android_ResumeSem)` is called on a valid semaphore; it blocks
  the calling thread until the Resume signal is raised and then returns 0.
  The model records that a blocking wait was performed (`SemOp.waitResume` in
  the output's operation list) and takes the success branch.
* C `int`/`Uint32` counters are modelled as `Nat` where they are counts
  (`SDL_NumberOfEvents` results, `SDL_SemValue`) and as `Int` where they are
  plain integers (sizes, rates, swap intervals). EGL error codes are `Int`.
* Events pushed with `SDL_SendAppEvent` / `SDL_SendWindowEvent` /
  `SDL_PushEvent` are collected, in program order, in the output's `events`
  list.
-/

namespace AndroidEvents

/-- EGL error code EGL_BAD_ALLOC (0x3003). -/
def EGL_BAD_ALLOC : Int := 0x3003

/-- EGL error code EGL_BAD_MATCH (0x3009). -/
def EGL_BAD_MATCH : Int := 0x3009

/-- EGL error code EGL_SUCCESS (0x3000). -/
def EGL_SUCCESS : Int := 0x3000

/-- The lifecycle events the pump can push to the SDL event queue. -/
inductive SDLEvent where
  | appWillEnterBackground
  | appDidEnterBackground
  | appWillEnterForeground
  | appDidEnterForeground
  | windowMinimized
  | windowRestored
  | renderDeviceReset
deriving DecidableEq

/-- Semaphore operations a pump call can perform on the Pause/Resume pair. -/
inductive SemOp where
  | tryWaitPause
  | tryWaitResume
  | waitResume
  | semValuePause
deriving DecidableEq

/-- Whether a semaphore operation can suspend the calling thread:
only the plain `SDL_SemWait` on the Resume semaphore does. -/
def SemOp.isBlocking : SemOp → Bool
  | .waitResume => true
  | _ => false

/-- The fields of `SDL_WindowData` that this translation unit touches. -/
structure SDL_WindowData where
  egl_context : Nat
  backup_done : Nat
  has_native_window : Bool
deriving DecidableEq

/-- An SDL window: logical size plus its driver data. -/
structure WindowState where
  w : Int
  h : Int
  data : SDL_WindowData
deriving DecidableEq

/-- The static geometry memo of `android_egl_context_restore`
(`prev_surface_w`, `prev_surface_h`, `prev_rate`). -/
structure GeoMemo where
  prev_surface_w : Int
  prev_surface_h : Int
  prev_rate : Int
deriving DecidableEq

/-- Environment consumed by one call of `android_egl_context_restore`:
the outcomes of the EGL and windowing-layer queries it performs. -/
structure RestoreEnv where
  /-- `SDL_GL_MakeCurrent(window, data->egl_context) < 0` -/
  makeCurrentSavedFails : Bool
  /-- handle returned by `SDL_GL_CreateContext(window)` -/
  createdContext : Nat
  /-- result of `eglGetError()` -/
  eglError : Int
  /-- `ANativeWindow_getWidth(data->native_window)` -/
  nativeW : Int
  /-- `ANativeWindow_getHeight(data->native_window)` -/
  nativeH : Int
  /-- `ANativeWindow_getFormat(data->native_window)` -/
  nativeFormat : Int
  /-- `SDL_GetDisplayForWindow(window)` returned a display -/
  hasDisplay : Bool
  /-- `display->desktop_mode.refresh_rate` -/
  desktopRate : Int
  /-- `display->display_modes[i].refresh_rate` for each enumerated mode -/
  modeRates : List Int
  /-- `SDL_GL_SetSwapInterval(saved_swap_interval) < 0` -/
  setSwapIntervalFails : Bool
deriving DecidableEq

/-- One `Android_SetScreenResolution(sw, sh, dw, dh, rate)` call. -/
structure ResolutionCall where
  sw : Int
  sh : Int
  dw : Int
  dh : Int
  rate : Int
deriving DecidableEq

/-- Observable effects of one `android_egl_context_restore` call. -/
structure RestoreOut where
  events : List SDLEvent
  madeCurrent : List Nat
  setFormatCalls : List (Int × Int)
  setResolutionCalls : List ResolutionCall
  sendResizeCount : Nat
  swapIntervalCalls : List Int
deriving DecidableEq

/-- A restore call with a NULL window performs nothing. -/
def RestoreOut.empty : RestoreOut :=
  { events := [], madeCurrent := [], setFormatCalls := [],
    setResolutionCalls := [], sendResizeCount := 0, swapIntervalCalls := [] }

/-- `data && data->native_window` together with the `nw > 0 && nh > 0` guard:
the live native surface is queried and reports positive dimensions. -/
def surfaceLive (w : WindowState) (env : RestoreEnv) : Bool :=
  w.data.has_native_window && decide (0 < env.nativeW) && decide (0 < env.nativeH)

/-- `surface_w` after the native-window branch of the restore. -/
def restore_surface_w (w : WindowState) (env : RestoreEnv) : Int :=
  if surfaceLive w env then env.nativeW else w.w

/-- `surface_h` after the native-window branch of the restore. -/
def restore_surface_h (w : WindowState) (env : RestoreEnv) : Int :=
  if surfaceLive w env then env.nativeH else w.h

/-- `device_w` after the native-window branch: initialised to `surface_w`
(that is `window->w`) and overwritten with `nw` in the same branch. -/
def restore_device_w (w : WindowState) (env : RestoreEnv) : Int :=
  if surfaceLive w env then env.nativeW else w.w

/-- `device_h` after the native-window branch. -/
def restore_device_h (w : WindowState) (env : RestoreEnv) : Int :=
  if surfaceLive w env then env.nativeH else w.h

/-- The `max_rate` computation of the restore: fold over the desktop mode and
the enumerated modes starting from 0, keeping strictly larger rates, then
fall back to 60 when the result is not positive. -/
def restore_max_rate (env : RestoreEnv) : Int :=
  let r0 : Int :=
    if env.hasDisplay then
      env.modeRates.foldl (fun m r => if m < r then r else m)
        (if 0 < env.desktopRate then env.desktopRate else 0)
    else 0
  if r0 ≤ 0 then 60 else r0

/-- The `need_update` test: the computed `{surface_w, surface_h, max_rate}`
triple differs from the static memo. -/
def restore_need_update (w : WindowState) (memo : GeoMemo) (env : RestoreEnv) : Bool :=
  decide (restore_surface_w w env ≠ memo.prev_surface_w) ||
  decide (restore_surface_h w env ≠ memo.prev_surface_h) ||
  decide (restore_max_rate env ≠ memo.prev_rate)

/-- Embedding of `android_egl_context_restore` (SDL_androidevents.c:76-168).
Returns the updated window, the updated geometry memo, and the observable
effects. The swap-interval restore mirrors lines 156-163: a nonzero saved
value is re-applied, falling back to 0 when the call fails; a zero saved
value sets 0 directly. -/
def android_egl_context_restore (window : Option WindowState) (memo : GeoMemo)
    (saved_swap_interval : Int) (env : RestoreEnv) :
    Option WindowState × GeoMemo × RestoreOut :=
  match window with
  | none => (none, memo, RestoreOut.empty)
  | some w =>
    let ctx0 := w.data.egl_context
    let newCtx := if env.makeCurrentSavedFails then env.createdContext else ctx0
    let resetEvents : List SDLEvent :=
      (if env.makeCurrentSavedFails then [SDLEvent.renderDeviceReset] else []) ++
      (if env.eglError = EGL_BAD_ALLOC ∨ env.eglError = EGL_BAD_MATCH then
        [SDLEvent.renderDeviceReset] else [])
    let mc : List Nat :=
      if env.makeCurrentSavedFails then [ctx0, env.createdContext] else [ctx0]
    let fmtCalls : List (Int × Int) :=
      if w.data.has_native_window && decide (0 < env.nativeFormat) then
        [(env.nativeFormat, env.nativeFormat)] else []
    let sw := restore_surface_w w env
    let sh := restore_surface_h w env
    let dw := restore_device_w w env
    let dh := restore_device_h w env
    let rate := restore_max_rate env
    let upd := restore_need_update w memo env
    let resCalls : List ResolutionCall :=
      if upd then [ResolutionCall.mk sw sh dw dh rate] else []
    let resizeN : Nat := if upd then 1 else 0
    let memo2 : GeoMemo := if upd then GeoMemo.mk sw sh rate else memo
    let swapCalls : List Int :=
      if saved_swap_interval ≠ 0 then
        if env.setSwapIntervalFails then [saved_swap_interval, 0]
        else [saved_swap_interval]
      else [0]
    let w2 : WindowState :=
      { w with data := { w.data with egl_context := newCtx, backup_done := 0 } }
    (some w2, memo2,
      { events := resetEvents, madeCurrent := mc, setFormatCalls := fmtCalls,
        setResolutionCalls := resCalls, sendResizeCount := resizeN,
        swapIntervalCalls := swapCalls })

/-- Embedding of `android_egl_context_backup` (SDL_androidevents.c:170-181):
save the current context handle into the window data, detach the context
(`SDL_GL_MakeCurrent(window, NULL)`), and set `backup_done = 1`. -/
def android_egl_context_backup (window : Option WindowState)
    (currentContext : Nat) : Option WindowState :=
  match window with
  | none => none
  | some w =>
      some { w with data :=
        { w.data with egl_context := currentContext, backup_done := 1 } }

/-- The fields of `SDL_VideoData` used by the pumps. -/
structure VideoData where
  isPaused : Bool
  isPausing : Bool
  pauseAudio : Bool
deriving DecidableEq

/-- Whole machine state threaded through pump calls: the video data, the
window (`Android_Window`), and the C statics made explicit. -/
structure AndroidState where
  videodata : VideoData
  window : Option WindowState
  saved_swap_interval : Int
  memo : GeoMemo
  backup_context : Bool
deriving DecidableEq

/-- Environment consumed by one pump call: the outcomes of every external
query the call can perform. -/
structure PumpEnv where
  /-- `SDL_IsVideoContextExternal()` -/
  isContextExternal : Bool
  /-- `SDL_SemTryWait(Android_PauseSem) == 0` -/
  pauseTryWaitOk : Bool
  /-- `SDL_SemTryWait(Android_ResumeSem) == 0` -/
  resumeTryWaitOk : Bool
  /-- `SDL_NumberOfEvents(SDL_APP_DIDENTERBACKGROUND)` -/
  numBackgroundEvents : Nat
  /-- `SDL_SemValue(Android_PauseSem)` -/
  pauseSemValue : Nat
  /-- `SDL_HasEvent(SDL_QUIT)` -/
  hasQuitEvent : Bool
  /-- `SDL_IsTextInputActive()` -/
  textInputActive : Bool
  /-- `SDL_GL_GetCurrentContext()` -/
  currentContext : Nat
  /-- `SDL_GL_GetSwapInterval()` -/
  currentSwapInterval : Int
  /-- `aaudio_DetectBrokenPlayState()` -/
  brokenPlayState : Bool
  /-- outcomes of the queries made by a restore performed in this call -/
  restoreEnv : RestoreEnv
deriving DecidableEq

/-- Observable effects of one pump call. -/
structure PumpOut where
  events : List SDLEvent
  semOps : List SemOp
  backupCalls : Nat
  restoreCalls : Nat
  audioPauseCalls : Nat
  audioResumeCalls : Nat
  textInputRestarts : Nat
  setResolutionCalls : List ResolutionCall
  sendResizeCount : Nat
  swapIntervalCalls : List Int
deriving DecidableEq

/-- A pump call that performs nothing observable. -/
def PumpOut.empty : PumpOut :=
  { events := [], semOps := [], backupCalls := 0, restoreCalls := 0,
    audioPauseCalls := 0, audioResumeCalls := 0, textInputRestarts := 0,
    setResolutionCalls := [], sendResizeCount := 0, swapIntervalCalls := [] }

/-- The trailing `aaudio_DetectBrokenPlayState` workaround present in both
pumps: on a broken play state, cycle the aaudio backend pause+resume once. -/
def brokenPlayFix (env : PumpEnv) (o : PumpOut) : PumpOut :=
  if env.brokenPlayState then
    { o with audioPauseCalls := o.audioPauseCalls + 1,
             audioResumeCalls := o.audioResumeCalls + 1 }
  else o

/-- The `MINIMIZED`, `WILLENTERBACKGROUND`, `DIDENTERBACKGROUND` burst sent
when a pause signal is first observed (`isPausing == 0`). -/
def backgroundEvents : List SDLEvent :=
  [SDLEvent.windowMinimized, SDLEvent.appWillEnterBackground,
   SDLEvent.appDidEnterBackground]

/-- The `WILLENTERFOREGROUND`, `DIDENTERFOREGROUND`, `RESTORED` burst sent
when the Resume signal is observed. -/
def foregroundEvents : List SDLEvent :=
  [SDLEvent.appWillEnterForeground, SDLEvent.appDidEnterForeground,
   SDLEvent.windowRestored]

/-- Embedding of `Android_PumpEvents_Blocking` (SDL_androidevents.c:191-268).
When entered paused, the call backs up the context (unless external), pauses
the audio backends, and blocks on `SDL_SemWait(Android_ResumeSem)`; the wait
returns 0 once a Resume signal has been observed, after which the resume
processing runs. Otherwise the pause-detection branch runs: on a first
observation the swap interval is captured and the background burst emitted,
and the queued-background-count versus pause-semaphore-value comparison
decides between staying `isPausing` and committing `isPaused`. -/
def Android_PumpEvents_Blocking (s : AndroidState) (env : PumpEnv) :
    AndroidState × PumpOut :=
  if s.videodata.isPaused then
    let window1 :=
      if env.isContextExternal then s.window
      else android_egl_context_backup s.window env.currentContext
    let bkCalls : Nat := if env.isContextExternal then 0 else 1
    let doRestore : Bool := !env.isContextExternal && !env.hasQuitEvent
    let restored :=
      if doRestore then
        android_egl_context_restore window1 s.memo s.saved_swap_interval
          env.restoreEnv
      else (window1, s.memo, RestoreOut.empty)
    ({ s with videodata := { s.videodata with isPaused := false },
              window := restored.1, memo := restored.2.1 },
     brokenPlayFix env
       { events := foregroundEvents ++ restored.2.2.events,
         semOps := [SemOp.waitResume],
         backupCalls := bkCalls,
         restoreCalls := if doRestore then 1 else 0,
         audioPauseCalls := 3,
         audioResumeCalls := 3,
         textInputRestarts := if env.textInputActive then 1 else 0,
         setResolutionCalls := restored.2.2.setResolutionCalls,
         sendResizeCount := restored.2.2.sendResizeCount,
         swapIntervalCalls := restored.2.2.swapIntervalCalls })
  else
    if s.videodata.isPausing || env.pauseTryWaitOk then
      let firstObs : Bool := !s.videodata.isPausing
      let vd1 : VideoData :=
        if env.pauseSemValue < env.numBackgroundEvents then
          { s.videodata with isPausing := true }
        else
          { s.videodata with isPausing := false, isPaused := true }
      ({ s with videodata := vd1,
                saved_swap_interval :=
                  if firstObs then env.currentSwapInterval
                  else s.saved_swap_interval },
       brokenPlayFix env
         { PumpOut.empty with
             events := if firstObs then backgroundEvents else [],
             semOps := (if firstObs then [SemOp.tryWaitPause] else []) ++
                       [SemOp.semValuePause] })
    else
      (s, brokenPlayFix env { PumpOut.empty with semOps := [SemOp.tryWaitPause] })

/-- Embedding of `Android_PumpEvents_NonBlocking` (SDL_androidevents.c:270-355).
Identical pause detection, but the resume check is a try-wait, the context
backup is deferred through the static `backup_context` flag set at commit
time, audio quiescing is gated by `videodata->pauseAudio`, and the swap
interval is not captured anywhere in this function. -/
def Android_PumpEvents_NonBlocking (s : AndroidState) (env : PumpEnv) :
    AndroidState × PumpOut :=
  if s.videodata.isPaused then
    let window1 :=
      if s.backup_context then
        (if env.isContextExternal then s.window
         else android_egl_context_backup s.window env.currentContext)
      else s.window
    let bkCalls : Nat :=
      if s.backup_context && !env.isContextExternal then 1 else 0
    let aPause : Nat :=
      if s.backup_context && s.videodata.pauseAudio then 3 else 0
    let bc1 : Bool := if s.backup_context then false else s.backup_context
    if env.resumeTryWaitOk then
      let doRestore : Bool := !env.isContextExternal && !env.hasQuitEvent
      let restored :=
        if doRestore then
          android_egl_context_restore window1 s.memo s.saved_swap_interval
            env.restoreEnv
        else (window1, s.memo, RestoreOut.empty)
      ({ s with videodata := { s.videodata with isPaused := false },
                window := restored.1, memo := restored.2.1,
                backup_context := bc1 },
       brokenPlayFix env
         { events := foregroundEvents ++ restored.2.2.events,
           semOps := [SemOp.tryWaitResume],
           backupCalls := bkCalls,
           restoreCalls := if doRestore then 1 else 0,
           audioPauseCalls := aPause,
           audioResumeCalls := if s.videodata.pauseAudio then 3 else 0,
           textInputRestarts := if env.textInputActive then 1 else 0,
           setResolutionCalls := restored.2.2.setResolutionCalls,
           sendResizeCount := restored.2.2.sendResizeCount,
           swapIntervalCalls := restored.2.2.swapIntervalCalls })
    else
      ({ s with window := window1, backup_context := bc1 },
       brokenPlayFix env
         { PumpOut.empty with
             semOps := [SemOp.tryWaitResume],
             backupCalls := bkCalls,
             audioPauseCalls := aPause })
  else
    if s.videodata.isPausing || env.pauseTryWaitOk then
      let firstObs : Bool := !s.videodata.isPausing
      let r : VideoData × Bool :=
        if env.pauseSemValue < env.numBackgroundEvents then
          ({ s.videodata with isPausing := true }, s.backup_context)
        else
          ({ s.videodata with isPausing := false, isPaused := true }, true)
      ({ s with videodata := r.1, backup_context := r.2 },
       brokenPlayFix env
         { PumpOut.empty with
             events := if firstObs then backgroundEvents else [],
             semOps := (if firstObs then [SemOp.tryWaitPause] else []) ++
                       [SemOp.semValuePause] })
    else
      (s, brokenPlayFix env { PumpOut.empty with semOps := [SemOp.tryWaitPause] })

/-- Which of the two pump entry points drives the loop. -/
inductive PumpVariant where
  | blocking
  | nonblocking
deriving DecidableEq

/-- One pump call of the chosen variant. -/
def pumpStep : PumpVariant → AndroidState → PumpEnv → AndroidState × PumpOut
  | .blocking, s, e => Android_PumpEvents_Blocking s e
  | .nonblocking, s, e => Android_PumpEvents_NonBlocking s e

/-- Final state after a sequence of pump calls. -/
def runState (v : PumpVariant) : AndroidState → List PumpEnv → AndroidState
  | s, [] => s
  | s, e :: es => runState v (pumpStep v s e).1 es

/-- One executed pump call: state before, observable output, state after. -/
structure TraceStep where
  pre : AndroidState
  out : PumpOut
  post : AndroidState
deriving DecidableEq

/-- The trace of a sequence of pump calls. -/
def runTrace (v : PumpVariant) : AndroidState → List PumpEnv → List TraceStep
  | _, [] => []
  | s, e :: es =>
    TraceStep.mk s (pumpStep v s e).2 (pumpStep v s e).1 ::
      runTrace v (pumpStep v s e).1 es

/-- All events pushed along a trace, in order. -/
def traceEvents (ts : List TraceStep) : List SDLEvent :=
  (ts.map (fun t => t.out.events)).flatten

/-- All `SDL_GL_SetSwapInterval` arguments along a trace, in order. -/
def traceSwapCalls (ts : List TraceStep) : List Int :=
  (ts.map (fun t => t.out.swapIntervalCalls)).flatten

/-- Total number of `android_egl_context_backup` invocations along a trace. -/
def backupTotal (ts : List TraceStep) : Nat :=
  (ts.map (fun t => t.out.backupCalls)).sum

/-- Total number of `android_egl_context_restore` invocations along a trace. -/
def restoreTotal (ts : List TraceStep) : Nat :=
  (ts.map (fun t => t.out.restoreCalls)).sum

/-- A step that commits to the paused state (`isPaused` goes 0 to 1). -/
def pauseCommitB (pre post : AndroidState) : Bool :=
  !pre.videodata.isPaused && post.videodata.isPaused

/-- A step that commits to the resumed state (`isPaused` goes 1 to 0). -/
def resumeCommitB (pre post : AndroidState) : Bool :=
  pre.videodata.isPaused && !post.videodata.isPaused

/-- Number of pause commitments along a trace. -/
def pauseCommits (ts : List TraceStep) : Nat :=
  ts.countP (fun t => pauseCommitB t.pre t.post)

/-- Number of resume commitments along a trace. -/
def resumeCommits (ts : List TraceStep) : Nat :=
  ts.countP (fun t => resumeCommitB t.pre t.post)

/-- Initial window driver data: a valid context handle, no backup pending,
native window attached. -/
def initWindowData : SDL_WindowData :=
  { egl_context := 1, backup_done := 0, has_native_window := true }

/-- Initial window. -/
def initWindow : WindowState :=
  { w := 100, h := 200, data := initWindowData }

/-- Initial machine state: not paused, not pausing, all statics zeroed as C
zero-initialises them, audio pausing enabled. -/
def initState : AndroidState :=
  { videodata := { isPaused := false, isPausing := false, pauseAudio := true },
    window := some initWindow,
    saved_swap_interval := 0,
    memo := { prev_surface_w := 0, prev_surface_h := 0, prev_rate := 0 },
    backup_context := false }

/-- Alternation checker for the `DIDENTERBACKGROUND` / `DIDENTERFOREGROUND`
subsequence of an event stream. The boolean accumulator records whether a
background event is currently open (emitted and not yet answered by a
foreground event). The run fails (`none`) when a foreground event arrives
with no open background, or a second background arrives while one is open;
all other events are skipped. -/
def lifeRun : Bool → List SDLEvent → Option Bool
  | b, [] => some b
  | b, SDLEvent.appDidEnterBackground :: r => if b then none else lifeRun true r
  | b, SDLEvent.appDidEnterForeground :: r => if b then lifeRun false r else none
  | b, _ :: r => lifeRun b r

/-- The machine is in the background or heading there: exactly when the last
emitted lifecycle event is `DIDENTERBACKGROUND`. -/
def lifeFlag (s : AndroidState) : Bool :=
  s.videodata.isPausing || s.videodata.isPaused

/-- `isPausing` and `isPaused` are never set together (the commit branch
clears `isPausing` when it sets `isPaused`). -/
def stateConsistent (s : AndroidState) : Bool :=
  !(s.videodata.isPausing && s.videodata.isPaused)

/-- Number of context backups the current state still owes: the Blocking
pump backs up on its next call whenever it is paused; the NonBlocking pump
backs up on its next call whenever `backup_context` is set. -/
def pendBackup : PumpVariant → AndroidState → Nat
  | .blocking, s => if s.videodata.isPaused then 1 else 0
  | .nonblocking, s => if s.backup_context then 1 else 0

/-- For the NonBlocking pump, a set `backup_context` implies the paused
state (the flag is only raised at a pause commitment and always cleared
before the paused state can be left). -/
def bcInv : PumpVariant → AndroidState → Bool
  | .blocking, _ => true
  | .nonblocking, s => !s.backup_context || s.videodata.isPaused

/-- A restore environment in which every external call succeeds benignly:
no EGL failure, no native window report, one 60 Hz display mode. -/
def benignRestoreEnv : RestoreEnv :=
  { makeCurrentSavedFails := false, createdContext := 2,
    eglError := EGL_SUCCESS, nativeW := 0, nativeH := 0, nativeFormat := 0,
    hasDisplay := true, desktopRate := 60, modeRates := [],
    setSwapIntervalFails := false }

/-- A quiet pump environment: no signals pending, nothing queued. -/
def quietPumpEnv : PumpEnv :=
  { isContextExternal := false, pauseTryWaitOk := false,
    resumeTryWaitOk := false, numBackgroundEvents := 0, pauseSemValue := 0,
    hasQuitEvent := false, textInputActive := false, currentContext := 1,
    currentSwapInterval := 0, brokenPlayState := false,
    restoreEnv := benignRestoreEnv }

/-- Pump environment observing a fresh pause signal with nothing queued and
a live swap interval of 1: the pause commits immediately. -/
def commitPauseEnv : PumpEnv :=
  { quietPumpEnv with pauseTryWaitOk := true, currentSwapInterval := 1 }

/-- Pump environment in which the Resume signal is pending. -/
def resumeEnv : PumpEnv :=
  { quietPumpEnv with resumeTryWaitOk := true }

/-- Restore environment whose saved-context `MakeCurrent` fails and whose
subsequent `eglGetError` reports `EGL_BAD_ALLOC`. -/
def failAllocRestoreEnv : RestoreEnv :=
  { benignRestoreEnv with
      makeCurrentSavedFails := true
      eglError := EGL_BAD_ALLOC }

/-- A paused machine state reached after a committed pause with a captured
swap interval of 1. -/
def pausedState : AndroidState :=
  { initState with
      videodata := { isPaused := true, isPausing := false, pauseAudio := true },
      saved_swap_interval := 1 }

/-- A pausing-pending machine state: a background event is still queued. -/
def pendingState : AndroidState :=
  { initState with
      videodata := { isPaused := false, isPausing := true, pauseAudio := true } }

/-- Pump environment in which a queued background event still exceeds the
live pause-signal count: the pause must stay pending. -/
def pendingPauseEnv : PumpEnv :=
  { quietPumpEnv with numBackgroundEvents := 1 }

/-- Restore environment whose display reports only non-positive refresh
rates. -/
def allZeroRatesEnv : RestoreEnv :=
  { benignRestoreEnv with
      desktopRate := 0
      modeRates := [0, 0] }

@[simp] lemma brokenPlayFix_events (env : PumpEnv) (o : PumpOut) :
    (brokenPlayFix env o).events = o.events := by
  unfold brokenPlayFix; split <;> rfl

@[simp] lemma brokenPlayFix_semOps (env : PumpEnv) (o : PumpOut) :
    (brokenPlayFix env o).semOps = o.semOps := by
  unfold brokenPlayFix; split <;> rfl

@[simp] lemma brokenPlayFix_backupCalls (env : PumpEnv) (o : PumpOut) :
    (brokenPlayFix env o).backupCalls = o.backupCalls := by
  unfold brokenPlayFix; split <;> rfl

@[simp] lemma brokenPlayFix_restoreCalls (env : PumpEnv) (o : PumpOut) :
    (brokenPlayFix env o).restoreCalls = o.restoreCalls := by
  unfold brokenPlayFix; split <;> rfl

@[simp] lemma brokenPlayFix_swapIntervalCalls (env : PumpEnv) (o : PumpOut) :
    (brokenPlayFix env o).swapIntervalCalls = o.swapIntervalCalls := by
  unfold brokenPlayFix; split <;> rfl

@[simp] lemma brokenPlayFix_setResolutionCalls (env : PumpEnv) (o : PumpOut) :
    (brokenPlayFix env o).setResolutionCalls = o.setResolutionCalls := by
  unfold brokenPlayFix; split <;> rfl

@[simp] lemma brokenPlayFix_sendResizeCount (env : PumpEnv) (o : PumpOut) :
    (brokenPlayFix env o).sendResizeCount = o.sendResizeCount := by
  unfold brokenPlayFix; split <;> rfl

lemma lifeRun_append (b : Bool) (xs ys : List SDLEvent) :
    lifeRun b (xs ++ ys) = (lifeRun b xs).bind (fun c => lifeRun c ys) := by
  induction xs generalizing b with
  | nil => simp [lifeRun]
  | cons x r ih => cases x <;> cases b <;> simp [lifeRun, ih]

lemma restore_events_reset (window : Option WindowState) (memo : GeoMemo)
    (si : Int) (env : RestoreEnv) :
    ∀ e ∈ (android_egl_context_restore window memo si env).2.2.events,
      e = SDLEvent.renderDeviceReset := by
  cases window with
  | none => simp [android_egl_context_restore, RestoreOut.empty]
  | some w =>
    intro e he
    simp only [android_egl_context_restore, List.mem_append] at he
    rcases he with h | h <;> (split at h <;> simp_all)

lemma lifeRun_of_resets (b : Bool) (l : List SDLEvent)
    (h : ∀ e ∈ l, e = SDLEvent.renderDeviceReset) : lifeRun b l = some b := by
  induction l with
  | nil => rfl
  | cons x r ih =>
    have hx := h x (by simp)
    subst hx
    simpa [lifeRun] using ih (fun e he => h e (by simp [he]))

lemma pumpStep_consistent (v : PumpVariant) (s : AndroidState) (env : PumpEnv)
    (h : stateConsistent s = true) :
    stateConsistent (pumpStep v s env).1 = true := by
  cases v <;>
    simp only [pumpStep, Android_PumpEvents_Blocking,
      Android_PumpEvents_NonBlocking] <;>
    by_cases hp : s.videodata.isPaused <;>
    by_cases hg : s.videodata.isPausing <;>
    by_cases hsig : env.pauseTryWaitOk <;>
    by_cases hres : env.resumeTryWaitOk <;>
    simp_all [stateConsistent] <;>
    (try (split <;> simp_all))

lemma pumpStep_lifeRun (v : PumpVariant) (s : AndroidState) (env : PumpEnv)
    (h : stateConsistent s = true) :
    lifeRun (lifeFlag s) (pumpStep v s env).2.events =
      some (lifeFlag (pumpStep v s env).1) := by
  cases v <;>
    simp only [pumpStep, Android_PumpEvents_Blocking,
      Android_PumpEvents_NonBlocking] <;>
    by_cases hp : s.videodata.isPaused <;>
    by_cases hg : s.videodata.isPausing <;>
    by_cases hsig : env.pauseTryWaitOk <;>
    by_cases hres : env.resumeTryWaitOk <;>
    by_cases hcnt : env.pauseSemValue < env.numBackgroundEvents <;>
    simp_all [stateConsistent, lifeFlag, lifeRun_append, foregroundEvents,
      backgroundEvents, lifeRun] <;>
    (try split) <;>
    simp_all [lifeRun_of_resets _ _ (restore_events_reset _ _ _ _), lifeRun,
      RestoreOut.empty]

lemma runTrace_lifeRun (v : PumpVariant) (envs : List PumpEnv) :
    ∀ s : AndroidState, stateConsistent s = true →
      lifeRun (lifeFlag s) (traceEvents (runTrace v s envs)) =
        some (lifeFlag (runState v s envs)) := by
  induction envs with
  | nil => intro s _; simp [runTrace, traceEvents, runState, lifeRun]
  | cons e es ih =>
    intro s hs
    simp only [runTrace, traceEvents, List.map_cons, List.flatten_cons,
      runState]
    rw [lifeRun_append, pumpStep_lifeRun v s e hs]
    exact ih _ (pumpStep_consistent v s e hs)

/-- Claim C1: for every sequence of signal raises (every sequence of pump-call
environments), driven through either pump variant from the initial state,
the emitted event stream never contains `DIDENTERFOREGROUND` without an
open preceding `DIDENTERBACKGROUND`, and never two `DIDENTERBACKGROUND`
without an intervening `DIDENTERFOREGROUND`: the alternation checker
`lifeRun` never fails on the trace. -/
theorem C1_background_foreground_alternation (v : PumpVariant)
    (envs : List PumpEnv) :
    (lifeRun false (traceEvents (runTrace v initState envs))).isSome = true := by
  have h := runTrace_lifeRun v envs initState (by decide)
  have hf : lifeFlag initState = false := by decide
  rw [hf] at h
  rw [h]
  rfl

/-- Claim C4: in either pump variant, when a pause signal has been observed
(either a pending `isPausing` or a fresh successful try-wait) and the
number of queued `DIDENTERBACKGROUND` events exceeds the live Pause-signal
count, the step stays in the pausing-pending state instead of committing to
paused; and the `DIDENTERBACKGROUND` event is emitted exactly once per
unresolved pause: once on the first observation, never again while
pending. -/
theorem C4_pending_pause_no_reemission (v : PumpVariant) (s : AndroidState)
    (env : PumpEnv)
    (hP : s.videodata.isPaused = false)
    (hSig : s.videodata.isPausing = true ∨ env.pauseTryWaitOk = true)
    (hCnt : env.pauseSemValue < env.numBackgroundEvents) :
    (pumpStep v s env).1.videodata.isPausing = true ∧
    (pumpStep v s env).1.videodata.isPaused = false ∧
    (pumpStep v s env).2.events.count SDLEvent.appDidEnterBackground =
      (if s.videodata.isPausing then 0 else 1) := by
  have hOr : (s.videodata.isPausing || env.pauseTryWaitOk) = true := by
    rcases hSig with h | h <;> simp [h]
  cases v <;> by_cases hg : s.videodata.isPausing <;>
    simp_all [pumpStep, Android_PumpEvents_Blocking,
      Android_PumpEvents_NonBlocking, backgroundEvents, hCnt]

/-- Witness for C4: a Blocking-pump call in the pending state with one queued
background event and a zero semaphore count stays pending and emits no
further `DIDENTERBACKGROUND`. -/
theorem C4_pending_pause_no_reemission_witness :
    (pumpStep PumpVariant.blocking pendingState pendingPauseEnv).1.videodata.isPausing = true ∧
    (pumpStep PumpVariant.blocking pendingState pendingPauseEnv).1.videodata.isPaused = false ∧
    (pumpStep PumpVariant.blocking pendingState pendingPauseEnv).2.events.count
        SDLEvent.appDidEnterBackground =
      (if pendingState.videodata.isPausing then 0 else 1) :=
  C4_pending_pause_no_reemission PumpVariant.blocking pendingState
    pendingPauseEnv (by decide) (Or.inl (by decide)) (by decide)

/-- Counterexample for C6: the Blocking-pump call that commits to the paused
state (pause signal pending, nothing queued) returns with `isPaused` set
without having performed any blocking wait on the Resume semaphore — the
blocking wait does not happen before control returns from the committing
call, contradicting the claim as stated; it happens on the next call. -/
theorem C6_counterexample :
    (Android_PumpEvents_Blocking initState commitPauseEnv).1.videodata.isPaused = true ∧
    SemOp.waitResume ∉
      (Android_PumpEvents_Blocking initState commitPauseEnv).2.semOps := by
  decide

/-- Claim C6 amended: the committing call itself returns without waiting, but
every Blocking-pump call entered in the paused state performs the blocking
wait on the Resume semaphore (which completes only once a Resume signal has
been observed) and leaves the paused state before returning. -/
theorem C6_blocking_waits_while_paused (s : AndroidState) (env : PumpEnv)
    (h : s.videodata.isPaused = true) :
    SemOp.waitResume ∈ (Android_PumpEvents_Blocking s env).2.semOps ∧
    (Android_PumpEvents_Blocking s env).1.videodata.isPaused = false := by
  simp [Android_PumpEvents_Blocking, h]

/-- Witness for C6: a paused state entered with a quiet environment performs the
blocking wait and resumes. -/
theorem C6_blocking_waits_while_paused_witness :
    SemOp.waitResume ∈
      (Android_PumpEvents_Blocking pausedState quietPumpEnv).2.semOps ∧
    (Android_PumpEvents_Blocking pausedState quietPumpEnv).1.videodata.isPaused = false :=
  C6_blocking_waits_while_paused pausedState quietPumpEnv (by decide)

/-- Claim C7: the NonBlocking pump, called in any state with any environment,
performs only non-blocking semaphore operations (try-waits and value
queries), never the suspending `SDL_SemWait`. -/
theorem C7_nonblocking_never_blocks (s : AndroidState) (env : PumpEnv) :
    ((Android_PumpEvents_NonBlocking s env).2.semOps.all
      (fun op => !op.isBlocking)) = true := by
  by_cases hp : s.videodata.isPaused <;>
    by_cases hres : env.resumeTryWaitOk <;>
    by_cases hg : s.videodata.isPausing <;>
    by_cases hsig : env.pauseTryWaitOk <;>
    simp_all [Android_PumpEvents_NonBlocking, SemOp.isBlocking]

lemma pumpStep_bcInv (v : PumpVariant) (s : AndroidState) (env : PumpEnv)
    (h : bcInv v s = true) : bcInv v (pumpStep v s env).1 = true := by
  cases v
  case blocking => simp [bcInv]
  case nonblocking =>
    simp only [pumpStep, Android_PumpEvents_NonBlocking]
    by_cases hp : s.videodata.isPaused <;>
      by_cases hres : env.resumeTryWaitOk <;>
      by_cases hg : s.videodata.isPausing <;>
      by_cases hsig : env.pauseTryWaitOk <;>
      simp_all [bcInv] <;>
      (try (split <;> simp_all))

lemma pumpStep_backup_bound (v : PumpVariant) (s : AndroidState)
    (env : PumpEnv) (h : bcInv v s = true) :
    (pumpStep v s env).2.backupCalls +
        pendBackup v (pumpStep v s env).1 ≤
      pendBackup v s +
        (if pauseCommitB s (pumpStep v s env).1 = true then 1 else 0) := by
  cases v <;>
    simp only [pumpStep, Android_PumpEvents_Blocking,
      Android_PumpEvents_NonBlocking] <;>
    by_cases hp : s.videodata.isPaused <;>
    by_cases hres : env.resumeTryWaitOk <;>
    by_cases hg : s.videodata.isPausing <;>
    by_cases hsig : env.pauseTryWaitOk <;>
    by_cases hbc : s.backup_context <;>
    by_cases hext : env.isContextExternal <;>
    simp_all [bcInv, pendBackup, pauseCommitB, PumpOut.empty] <;>
    (try (split <;> simp_all [PumpOut.empty]))

lemma pumpStep_restore_bound (v : PumpVariant) (s : AndroidState)
    (env : PumpEnv) :
    (pumpStep v s env).2.restoreCalls ≤
      (if resumeCommitB s (pumpStep v s env).1 = true then 1 else 0) := by
  cases v <;>
    simp only [pumpStep, Android_PumpEvents_Blocking,
      Android_PumpEvents_NonBlocking] <;>
    by_cases hp : s.videodata.isPaused <;>
    by_cases hres : env.resumeTryWaitOk <;>
    by_cases hg : s.videodata.isPausing <;>
    by_cases hsig : env.pauseTryWaitOk <;>
    by_cases hext : env.isContextExternal <;>
    by_cases hq : env.hasQuitEvent <;>
    simp_all [resumeCommitB, PumpOut.empty]

lemma runTrace_backup_le (v : PumpVariant) (envs : List PumpEnv) :
    ∀ s, bcInv v s = true →
      backupTotal (runTrace v s envs) + pendBackup v (runState v s envs) ≤
        pendBackup v s + pauseCommits (runTrace v s envs) := by
  induction envs with
  | nil =>
    intro s _
    simp [runTrace, backupTotal, runState, pauseCommits]
  | cons e es ih =>
    intro s hs
    simp only [runTrace, backupTotal, List.map_cons, List.sum_cons, runState,
      pauseCommits, List.countP_cons]
    have h1 := pumpStep_backup_bound v s e hs
    have h2 := ih (pumpStep v s e).1 (pumpStep_bcInv v s e hs)
    simp only [backupTotal, pauseCommits, pendBackup] at h1 h2 ⊢
    omega

lemma runTrace_restore_le (v : PumpVariant) (envs : List PumpEnv) :
    ∀ s, restoreTotal (runTrace v s envs) ≤ resumeCommits (runTrace v s envs) := by
  induction envs with
  | nil =>
    intro s
    simp [runTrace, restoreTotal, resumeCommits]
  | cons e es ih =>
    intro s
    simp only [runTrace, restoreTotal, List.map_cons, List.sum_cons,
      resumeCommits, List.countP_cons]
    have h1 := pumpStep_restore_bound v s e
    have h2 := ih (pumpStep v s e).1
    simp only [restoreTotal, resumeCommits] at h1 h2 ⊢
    omega

/-- Claim C8: along any sequence of pump calls of either variant from the initial
state, the total number of `android_egl_context_backup` invocations never
exceeds the number of pause commitments, and the total number of
`android_egl_context_restore` invocations never exceeds the number of
resume commitments: repeated ticks while the state is stable perform no
extra backup or restore. -/
theorem C8_backup_restore_at_most_once_per_commit (v : PumpVariant)
    (envs : List PumpEnv) :
    backupTotal (runTrace v initState envs) ≤
      pauseCommits (runTrace v initState envs) ∧
    restoreTotal (runTrace v initState envs) ≤
      resumeCommits (runTrace v initState envs) := by
  refine ⟨?_, runTrace_restore_le v envs initState⟩
  have hinv : bcInv v initState = true := by cases v <;> decide
  have h := runTrace_backup_le v envs initState hinv
  have hp : pendBackup v initState = 0 := by cases v <;> decide
  omega

lemma restore_window_eq (w : WindowState) (memo : GeoMemo) (si : Int)
    (env : RestoreEnv) :
    (android_egl_context_restore (some w) memo si env).1 =
      some { w with data := { w.data with
        egl_context := if env.makeCurrentSavedFails then env.createdContext
                       else w.data.egl_context
        backup_done := 0 } } := rfl

lemma restore_memo_eq (w : WindowState) (memo : GeoMemo) (si : Int)
    (env : RestoreEnv) :
    (android_egl_context_restore (some w) memo si env).2.1 =
      if restore_need_update w memo env then
        GeoMemo.mk (restore_surface_w w env) (restore_surface_h w env)
          (restore_max_rate env)
      else memo := rfl

lemma restore_resize_eq (w : WindowState) (memo : GeoMemo) (si : Int)
    (env : RestoreEnv) :
    (android_egl_context_restore (some w) memo si env).2.2.sendResizeCount =
      if restore_need_update w memo env then 1 else 0 := rfl

lemma restore_setResolutionCalls_eq (w : WindowState) (memo : GeoMemo)
    (si : Int) (env : RestoreEnv) :
    (android_egl_context_restore (some w) memo si env).2.2.setResolutionCalls =
      if restore_need_update w memo env then
        [ResolutionCall.mk (restore_surface_w w env) (restore_surface_h w env)
          (restore_device_w w env) (restore_device_h w env)
          (restore_max_rate env)]
      else [] := rfl

lemma restore_swap_eq (w : WindowState) (memo : GeoMemo) (si : Int)
    (env : RestoreEnv) :
    (android_egl_context_restore (some w) memo si env).2.2.swapIntervalCalls =
      if si ≠ 0 then
        (if env.setSwapIntervalFails then [si, 0] else [si])
      else [0] := rfl

lemma restore_events_eq (w : WindowState) (memo : GeoMemo) (si : Int)
    (env : RestoreEnv) :
    (android_egl_context_restore (some w) memo si env).2.2.events =
      (if env.makeCurrentSavedFails then [SDLEvent.renderDeviceReset] else []) ++
      (if env.eglError = EGL_BAD_ALLOC ∨ env.eglError = EGL_BAD_MATCH then
        [SDLEvent.renderDeviceReset] else []) := rfl

lemma restore_madeCurrent_eq (w : WindowState) (memo : GeoMemo) (si : Int)
    (env : RestoreEnv) :
    (android_egl_context_restore (some w) memo si env).2.2.madeCurrent =
      if env.makeCurrentSavedFails then [w.data.egl_context, env.createdContext]
      else [w.data.egl_context] := rfl

lemma surfaceLive_data_update (w : WindowState) (env : RestoreEnv) (c b : Nat) :
    surfaceLive
      { w with data := { w.data with egl_context := c, backup_done := b } } env =
      surfaceLive w env := rfl

/-- Claim C2: on a restore, the resolution push (`Android_SetScreenResolution`) and
the resize notification (`Android_SendResize`) happen exactly when the
computed `{surface width, surface height, refresh rate}` triple differs from
the geometry memo, and a second restore right after the first with identical
geometry produces no further resize notification: two consecutive resumes
with identical geometry yield exactly one resize push. -/
theorem C2_resolution_resize_debounce (w : WindowState) (memo : GeoMemo)
    (si si2 : Int) (env : RestoreEnv) :
    ((android_egl_context_restore (some w) memo si env).2.2.sendResizeCount =
      if (restore_surface_w w env, restore_surface_h w env, restore_max_rate env) ≠
          (memo.prev_surface_w, memo.prev_surface_h, memo.prev_rate)
      then 1 else 0) ∧
    ((android_egl_context_restore (some w) memo si env).2.2.setResolutionCalls.length =
      if (restore_surface_w w env, restore_surface_h w env, restore_max_rate env) ≠
          (memo.prev_surface_w, memo.prev_surface_h, memo.prev_rate)
      then 1 else 0) ∧
    ((android_egl_context_restore
        (android_egl_context_restore (some w) memo si env).1
        (android_egl_context_restore (some w) memo si env).2.1
        si2 env).2.2.sendResizeCount = 0) := by
  have hnu : (restore_need_update w memo env = true) ↔
      ((restore_surface_w w env, restore_surface_h w env, restore_max_rate env) ≠
        (memo.prev_surface_w, memo.prev_surface_h, memo.prev_rate)) := by
    simp only [restore_need_update, Bool.or_eq_true, decide_eq_true_eq, ne_eq,
      Prod.mk.injEq, not_and]
    tauto
  refine ⟨?_, ?_, ?_⟩
  · rw [restore_resize_eq]
    by_cases h : restore_need_update w memo env <;> simp_all
  · rw [restore_setResolutionCalls_eq]
    by_cases h : restore_need_update w memo env <;> simp_all
  · rw [restore_window_eq, restore_memo_eq]
    by_cases h : restore_need_update w memo env
    · rw [if_pos h, restore_resize_eq]
      simp [restore_need_update, restore_surface_w, restore_surface_h,
        surfaceLive]
    · rw [if_neg h, restore_resize_eq]
      have : restore_need_update
          { w with data := { w.data with
              egl_context := if env.makeCurrentSavedFails then env.createdContext
                             else w.data.egl_context
              backup_done := 0 } } memo env =
          restore_need_update w memo env := by
        simp [restore_need_update, restore_surface_w, restore_surface_h,
          surfaceLive]
      rw [this]
      simp [h]

/-- Claim C10: every `Android_SetScreenResolution` call made by the restore path
passes device pixel dimensions equal to the surface dimensions, whether the
live native surface was queried or the window's last known size was kept. -/
theorem C10_device_dims_equal_surface (window : Option WindowState)
    (memo : GeoMemo) (si : Int) (env : RestoreEnv) :
    ((android_egl_context_restore window memo si env).2.2.setResolutionCalls.all
      (fun c => c.dw == c.sw && c.dh == c.sh)) = true := by
  cases window with
  | none => rfl
  | some w =>
    rw [restore_setResolutionCalls_eq]
    split <;>
      simp [restore_device_w, restore_surface_w, restore_device_h,
        restore_surface_h]

/-- Counterexample for C5: a restore whose saved-context `MakeCurrent` fails and
whose subsequent `eglGetError` reports `EGL_BAD_ALLOC` pushes TWO
`RenderDeviceReset` events, not exactly one as the claim states. -/
theorem C5_counterexample :
    ((android_egl_context_restore (some initWindow) (GeoMemo.mk 0 0 0) 0
        failAllocRestoreEnv).2.2.events.count SDLEvent.renderDeviceReset = 2) ∧
    ¬ ((android_egl_context_restore (some initWindow) (GeoMemo.mk 0 0 0) 0
        failAllocRestoreEnv).2.2.events.count SDLEvent.renderDeviceReset = 1) := by
  decide

/-- Claim C5 amended: on a restore where making the saved context current fails, a
new context is created, stored in the window data and made current, and
exactly one `RenderDeviceReset` is pushed for the failure — plus one more
defensive `RenderDeviceReset` when the subsequent `eglGetError` reports
`EGL_BAD_ALLOC` or `EGL_BAD_MATCH` (two in total in that case). -/
theorem C5_reset_on_makecurrent_failure (w : WindowState) (memo : GeoMemo)
    (si : Int) (env : RestoreEnv) (h : env.makeCurrentSavedFails = true) :
    (∃ w2, (android_egl_context_restore (some w) memo si env).1 = some w2 ∧
       w2.data.egl_context = env.createdContext) ∧
    env.createdContext ∈
      (android_egl_context_restore (some w) memo si env).2.2.madeCurrent ∧
    ((android_egl_context_restore (some w) memo si env).2.2.events.count
        SDLEvent.renderDeviceReset =
      if env.eglError = EGL_BAD_ALLOC ∨ env.eglError = EGL_BAD_MATCH
      then 2 else 1) := by
  refine ⟨⟨_, restore_window_eq w memo si env, by simp [h]⟩, ?_, ?_⟩
  · rw [restore_madeCurrent_eq, if_pos h]
    simp
  · rw [restore_events_eq, if_pos h]
    by_cases he : env.eglError = EGL_BAD_ALLOC ∨ env.eglError = EGL_BAD_MATCH <;>
      simp [he]

/-- Witness for C5: concrete restore with a failed `MakeCurrent` and a
`BAD_ALLOC` error report. -/
theorem C5_reset_on_makecurrent_failure_witness :
    (∃ w2, (android_egl_context_restore (some initWindow) (GeoMemo.mk 0 0 0) 0
        failAllocRestoreEnv).1 = some w2 ∧
       w2.data.egl_context = failAllocRestoreEnv.createdContext) ∧
    failAllocRestoreEnv.createdContext ∈
      (android_egl_context_restore (some initWindow) (GeoMemo.mk 0 0 0) 0
        failAllocRestoreEnv).2.2.madeCurrent ∧
    ((android_egl_context_restore (some initWindow) (GeoMemo.mk 0 0 0) 0
        failAllocRestoreEnv).2.2.events.count SDLEvent.renderDeviceReset =
      if failAllocRestoreEnv.eglError = EGL_BAD_ALLOC ∨
          failAllocRestoreEnv.eglError = EGL_BAD_MATCH
      then 2 else 1) :=
  C5_reset_on_makecurrent_failure initWindow (GeoMemo.mk 0 0 0) 0
    failAllocRestoreEnv (by decide)

lemma foldl_if_max (l : List Int) : ∀ a : Int,
    l.foldl (fun m r => if m < r then r else m) a = l.foldl max a := by
  induction l with
  | nil => intro a; rfl
  | cons x r ih =>
    intro a
    have hx : (if a < x then x else a) = max a x := by
      rcases le_or_lt x a with h | h
      · simp [not_lt.2 h, max_eq_left h]
      · simp [h, max_eq_right h.le]
    simp only [List.foldl_cons, hx, ih]

lemma foldl_max_shift (l : List Int) : ∀ a b : Int,
    l.foldl max (max a b) = max a (l.foldl max b) := by
  induction l with
  | nil => intro a b; rfl
  | cons x r ih =>
    intro a b
    simp only [List.foldl_cons]
    rw [max_assoc, ih]

lemma le_foldl_max (l : List Int) : ∀ a : Int, a ≤ l.foldl max a := by
  induction l with
  | nil => intro a; simp
  | cons x r ih =>
    intro a
    exact le_trans (le_max_left a x) (by simpa using ih (max a x))

lemma foldl_max_le (l : List Int) : ∀ a c : Int, a ≤ c → (∀ x ∈ l, x ≤ c) →
    l.foldl max a ≤ c := by
  induction l with
  | nil => intro a c h _; simpa using h
  | cons x r ih =>
    intro a c ha hl
    simp only [List.foldl_cons]
    exact ih _ c (max_le ha (hl x (by simp))) (fun y hy => hl y (by simp [hy]))

lemma mem_le_foldl_max (l : List Int) (x : Int) : x ∈ l → ∀ a : Int,
    x ≤ l.foldl max a := by
  induction l with
  | nil => intro h; cases h
  | cons y r ih =>
    intro hx a
    rcases List.mem_cons.1 hx with h | h
    · subst h
      exact le_trans (le_max_right a x) (le_foldl_max r _)
    · exact ih h _

/-- Claim C9: with a display present, the refresh rate resolved by the restore is
the maximum over the display's desktop mode and all enumerated modes when
any of them is positive, and 60 when none of them is positive. -/
theorem C9_max_refresh_rate (env : RestoreEnv) (hd : env.hasDisplay = true) :
    ((env.desktopRate ≤ 0 ∧ ∀ r ∈ env.modeRates, r ≤ 0) →
        restore_max_rate env = 60) ∧
    ((0 < env.desktopRate ∨ ∃ r ∈ env.modeRates, 0 < r) →
        restore_max_rate env = env.modeRates.foldl max env.desktopRate) := by
  have hbase : (if 0 < env.desktopRate then env.desktopRate else (0 : Int)) =
      max 0 env.desktopRate := by
    rcases le_or_lt env.desktopRate 0 with h | h
    · simp [not_lt.2 h, max_eq_left h]
    · simp [h, max_eq_right h.le]
  have hr0 : restore_max_rate env =
      if max 0 (env.modeRates.foldl max env.desktopRate) ≤ 0 then 60
      else max 0 (env.modeRates.foldl max env.desktopRate) := by
    simp only [restore_max_rate, hd, if_true, hbase, foldl_if_max,
      foldl_max_shift]
  constructor
  · rintro ⟨h1, h2⟩
    have hM : env.modeRates.foldl max env.desktopRate ≤ 0 :=
      foldl_max_le _ _ _ h1 h2
    rw [hr0, max_eq_left hM]
    simp
  · intro h
    have hM : 0 < env.modeRates.foldl max env.desktopRate := by
      rcases h with h | ⟨r, hr, hrpos⟩
      · exact lt_of_lt_of_le h (le_foldl_max _ _)
      · exact lt_of_lt_of_le hrpos (mem_le_foldl_max _ _ hr _)
    rw [hr0, max_eq_right hM.le, if_neg (not_le.2 hM)]

/-- Witness for C9: a display whose modes all report rate 0 resolves to 60. -/
theorem C9_max_refresh_rate_witness :
    restore_max_rate allZeroRatesEnv = 60 :=
  (C9_max_refresh_rate allZeroRatesEnv (by decide)).1 (by decide)

/-- Counterexample for C3: the NonBlocking pump never captures the swap
interval. With a live swap interval of 1 at the pause observation, the
commit leaves the saved interval at its initial 0, and the restore of the
following resume applies 0 — not the pre-pause value 1 — refuting the claim
for the NonBlocking variant. -/
theorem C3_counterexample :
    commitPauseEnv.currentSwapInterval = 1 ∧
    (runState PumpVariant.nonblocking initState
        [commitPauseEnv]).videodata.isPaused = true ∧
    (runState PumpVariant.nonblocking initState
        [commitPauseEnv]).saved_swap_interval = 0 ∧
    traceSwapCalls (runTrace PumpVariant.nonblocking initState
        [commitPauseEnv, resumeEnv]) = [0] ∧
    traceSwapCalls (runTrace PumpVariant.nonblocking initState
        [commitPauseEnv, resumeEnv]) ≠ [commitPauseEnv.currentSwapInterval] := by
  decide

/-- Claim C3 amended: in the Blocking pump only, the swap interval is captured
when the pause signal is first observed, and the restore of the following
resume re-applies that value, falling back to 0 when the re-apply call
fails (a captured 0 is applied as 0 directly). The NonBlocking pump
performs no capture, so its restores apply whatever was last captured by a
Blocking pause (initially 0). -/
theorem C3_blocking_swap_interval_roundtrip (s : AndroidState)
    (e1 e2 : PumpEnv)
    (h1 : s.videodata.isPaused = false)
    (h2 : s.videodata.isPausing = false)
    (h3 : e1.pauseTryWaitOk = true)
    (h4 : e1.numBackgroundEvents ≤ e1.pauseSemValue)
    (h5 : e2.isContextExternal = false)
    (h6 : e2.hasQuitEvent = false)
    (h7 : s.window.isSome = true) :
    (Android_PumpEvents_Blocking s e1).1.saved_swap_interval =
      e1.currentSwapInterval ∧
    (Android_PumpEvents_Blocking s e1).1.videodata.isPaused = true ∧
    (Android_PumpEvents_Blocking
        (Android_PumpEvents_Blocking s e1).1 e2).2.swapIntervalCalls.getLast? =
      some (if e1.currentSwapInterval ≠ 0 ∧
              e2.restoreEnv.setSwapIntervalFails = true
            then 0 else e1.currentSwapInterval) := by
  obtain ⟨w, hw⟩ := Option.isSome_iff_exists.1 h7
  have hns : ¬ (e1.pauseSemValue < e1.numBackgroundEvents) := Nat.not_lt.2 h4
  have hstep1 : (Android_PumpEvents_Blocking s e1).1 =
      { s with
          videodata :=
            { s.videodata with isPausing := false, isPaused := true }
          saved_swap_interval := e1.currentSwapInterval } := by
    simp [Android_PumpEvents_Blocking, h1, h2, h3, hns]
  refine ⟨by rw [hstep1], by rw [hstep1], ?_⟩
  rw [hstep1]
  simp only [Android_PumpEvents_Blocking, h5, h6, hw,
    android_egl_context_backup, Bool.not_false, Bool.and_self, if_true,
    brokenPlayFix_swapIntervalCalls, restore_swap_eq]
  by_cases hv : e1.currentSwapInterval = 0 <;>
    by_cases hf : e2.restoreEnv.setSwapIntervalFails <;>
    simp [hv, hf, restore_swap_eq]

/-- Witness for C3: a Blocking pause with live interval 1 followed by a resume
whose swap re-apply succeeds ends with 1 applied. -/
theorem C3_blocking_swap_interval_roundtrip_witness :
    (Android_PumpEvents_Blocking initState commitPauseEnv).1.saved_swap_interval =
      commitPauseEnv.currentSwapInterval ∧
    (Android_PumpEvents_Blocking initState commitPauseEnv).1.videodata.isPaused = true ∧
    (Android_PumpEvents_Blocking
        (Android_PumpEvents_Blocking initState commitPauseEnv).1
        quietPumpEnv).2.swapIntervalCalls.getLast? =
      some (if commitPauseEnv.currentSwapInterval ≠ 0 ∧
              quietPumpEnv.restoreEnv.setSwapIntervalFails = true
            then 0 else commitPauseEnv.currentSwapInterval) :=
  C3_blocking_swap_interval_roundtrip initState commitPauseEnv quietPumpEnv
    (by decide) (by decide) (by decide) (by decide) (by decide) (by decide)
    (by decide)

end AndroidEvents
